import Mathlib

/-!
Verification of the pybotx-next bot-platform client against its
natural-language specification.

The development shallowly embeds the parts of the code the claims are
about: the callback-correlation engine (callbacks manager), the handler
registry (HandlersCollector / BaseDispatcher), the per-method
status-code -> error tables of the chats API methods, and the
notification-sending path of AsyncBot.

Modules of the repository whose implementation files are absent from
src/ (the callbacks manager, the HandlersCollector, the shared
BotXMethod dispatch helpers) are modelled from the specification, with
their behavior pinned by the repository's own tests where the tests
exercise them; each such definition carries a doc comment starting
with `Modelled from the spec:`.
-/

set_option autoImplicit false

namespace Pybotx

/-- Correlation identifiers (`sync_id` UUIDs) are modelled as strings. -/
abbrev SyncId := String

/-- Association-list lookup keyed by strings, the shape Python dict reads
take in this embedding (at most one entry per key is maintained by the
operations below). -/
def alookup {α : Type} (key : String) : List (String × α) → Option α
  | [] => none
  | (k, v) :: rest => if k = key then some v else alookup key rest

/-- Remove the entry with the given key (Python `dict.pop`). -/
def removeKey {α : Type} (key : String) : List (String × α) → List (String × α)
  | [] => []
  | (k, v) :: rest => if k = key then rest else (k, v) :: removeKey key rest

/-- Replace the value stored under the given key, keeping its position
(Python `d[k] = v` on an existing key). Missing keys are left alone. -/
def setKey {α : Type} (key : String) (newVal : α) :
    List (String × α) → List (String × α)
  | [] => []
  | (k, v) :: rest =>
      if k = key then (k, newVal) :: rest else (k, v) :: setKey key newVal rest

/-! ## Callback engine data model

A parsed inbound BotX method callback, as fed to
`Bot.set_raw_botx_method_result` (shape taken from the payloads in
tests/client/test_botx_method_callback.py): a success carries a result
payload, a failure carries a `reason` string and error detail. -/

/-- Parsed inbound callback payload. -/
inductive BotXMethodCallback where
  | success (sync_id : SyncId) (result : String)
  | failure (sync_id : SyncId) (reason : String) (error_data : String)
  deriving DecidableEq, Repr

/-- The correlation id the callback carries. -/
def BotXMethodCallback.sync_id : BotXMethodCallback → SyncId
  | .success sid _ => sid
  | .failure sid _ _ => sid

/-- The error kinds of the callback engine, named after the exception
classes imported in tests/client/test_botx_method_callback.py. -/
inductive BotXError where
  | callbackNotFound (sync_id : SyncId)
  | callbackNotReceived (sync_id : SyncId)
  | botShuttingDown (sync_id : SyncId)
  | managerShuttingDown
  | duplicateCorrelationId (sync_id : SyncId)
  | methodFailedCallbackReceived (reason : String) (error_data : String)
  | specificCallbackError (kind comment reason error_data : String)
  deriving DecidableEq, Repr

/-- The state of one pending-callback entry while it sits in the
correlation table: `pending` is the spec's Created state; `timedOut`
marks an entry whose waiter already received the timeout error but
whose slot is kept so that a late callback is recognised and only
logged (pinned by test__botx_method_callback__callback_received_after_timeout). -/
inductive FutureState where
  | pending
  | timedOut
  deriving DecidableEq, Repr

def FutureState.isPending : FutureState → Bool
  | .pending => true
  | .timedOut => false

/-- The process-wide callbacks-manager state: correlation table plus the
accepting flag (spec section 3, CallbackManagerState). -/
structure CallbacksManager where
  futures : List (SyncId × FutureState)
  accepting : Bool
  deriving DecidableEq, Repr

/-- What the ingestion path does with a recognised callback. -/
inductive IngestOutcome where
  | delivered (sync_id : SyncId) (cb : BotXMethodCallback)
  | orphanLogged (sync_id : SyncId)
  deriving DecidableEq, Repr

/-- Modelled from the spec: `register` (section 4.3) /
`create_botx_method_callback` of the callbacks manager, whose
implementation file is absent from src/. Fails with the
shutting-down rejection when accepting is false, with the duplicate
error when the id is already present, and otherwise inserts a new
entry in Created state. -/
def create_botx_method_callback (m : CallbacksManager) (sid : SyncId) :
    Except BotXError CallbacksManager :=
  if m.accepting then
    match alookup sid m.futures with
    | some _ => .error (.duplicateCorrelationId sid)
    | none => .ok { m with futures := m.futures ++ [(sid, .pending)] }
  else .error .managerShuttingDown

/-- Modelled from the spec: the ingestion path
(`set_raw_botx_method_result` / `resolve_success` / `resolve_failure`,
sections 4.3 and 6), whose implementation file is absent from src/;
its orphan handling is pinned by the repository's tests. An id absent
from the table raises `BotXMethodCallbackNotFoundError` to the caller
(test__botx_method_callback__callback_not_found); an entry whose
waiter timed out is popped, logged as a non-fatal observability event
and dropped (test__botx_method_callback__callback_received_after_timeout);
a Created entry is popped and its callback delivered to the waiter. -/
def set_raw_botx_method_result (m : CallbacksManager) (cb : BotXMethodCallback) :
    Except BotXError (CallbacksManager × IngestOutcome) :=
  match alookup cb.sync_id m.futures with
  | none => .error (.callbackNotFound cb.sync_id)
  | some .pending =>
      .ok ({ m with futures := removeKey cb.sync_id m.futures },
           .delivered cb.sync_id cb)
  | some .timedOut =>
      .ok ({ m with futures := removeKey cb.sync_id m.futures },
           .orphanLogged cb.sync_id)

/-- Modelled from the spec: the timer firing for one entry (section 4.3;
a `timeout = 0` deadline fires before any callback arrives). If the
entry is still Created, it transitions to TimedOut and the waiter is
woken with the timeout error (returned as the second component);
otherwise nothing happens. -/
def callback_timeout_fire (m : CallbacksManager) (sid : SyncId) :
    CallbacksManager × Option BotXError :=
  match alookup sid m.futures with
  | some .pending =>
      ({ m with futures := setKey sid .timedOut m.futures },
       some (.callbackNotReceived sid))
  | _ => (m, none)

/-- Modelled from the spec: `shutdown()` (section 4.3), absent from
src/. Flips accepting to false and drains every Created entry,
waking each such waiter with the shutting-down error; the second
component lists the (sync_id, error) deliveries made to waiters. -/
def CallbacksManager.shutdown (m : CallbacksManager) :
    CallbacksManager × List (SyncId × BotXError) :=
  ({ futures := m.futures.filter (fun e => !e.2.isPending), accepting := false },
   m.futures.filterMap
     (fun e =>
       if e.2.isPending then some (e.1, BotXError.botShuttingDown e.1)
       else none))

/-- Per-call map from failure `reason` strings to specific error kinds:
each entry carries the error-kind name and the comment passed to
`callback_exception_thrower`. -/
abbrev ErrorCallbackHandlers := List (String × String × String)

/-- FooBarCallbackMethod.error_callback_handlers from
tests/client/test_botx_method_callback.py lines 41-46:
"foo_bar_error" is mapped to FooBarError with comment "FooBar comment". -/
def fooBarErrorCallbackHandlers : ErrorCallbackHandlers :=
  [("foo_bar_error", "FooBarError", "FooBar comment")]

/-- Modelled from the spec: the waiter-side handling of a delivered
callback (section 4.3 `resolve_failure` / section 4.4 step 4), absent
from src/. A success callback is returned to the caller; a failure
callback is turned into the specific mapped error when its reason is
in the per-call map, and into the generic callback-failure error
carrying the raw reason and detail otherwise. -/
def process_error_callback (handlers : ErrorCallbackHandlers)
    (cb : BotXMethodCallback) : Except BotXError BotXMethodCallback :=
  match cb with
  | .success sid res => .ok (.success sid res)
  | .failure _ reason detail =>
      match alookup reason handlers with
      | some (kind, comment) =>
          .error (.specificCallbackError kind comment reason detail)
      | none => .error (.methodFailedCallbackReceived reason detail)

/-! ## Helper lemmas about the correlation table -/

theorem alookup_filter_not_pending (l : List (SyncId × FutureState)) (s : SyncId) :
    alookup s (l.filter (fun e => !e.2.isPending)) ≠ some .pending := by
  induction l with
  | nil => simp [alookup]
  | cons e rest ih =>
      obtain ⟨k, st⟩ := e
      cases st with
      | pending => simpa [FutureState.isPending] using ih
      | timedOut =>
          by_cases hk : k = s
          · simp [FutureState.isPending, alookup, hk]
          · simpa [FutureState.isPending, alookup, hk] using ih

theorem mem_shutdown_drain (l : List (SyncId × FutureState)) (s : SyncId)
    (h : alookup s l = some .pending) :
    (s, BotXError.botShuttingDown s) ∈
      l.filterMap
        (fun e =>
          if e.2.isPending then some (e.1, BotXError.botShuttingDown e.1)
          else none) := by
  induction l with
  | nil => simp [alookup] at h
  | cons e rest ih =>
      obtain ⟨k, st⟩ := e
      by_cases hk : k = s
      · subst hk
        simp [alookup] at h
        subst h
        simp [FutureState.isPending]
      · simp only [alookup, if_neg hk] at h
        cases hst : st.isPending <;>
          simp [List.filterMap_cons, hst, ih h]

theorem alookup_setKey_self {α : Type} (l : List (String × α)) (k : String)
    (v w : α) (h : alookup k l = some w) :
    alookup k (setKey k v l) = some v := by
  induction l with
  | nil => simp [alookup] at h
  | cons e rest ih =>
      obtain ⟨k2, v2⟩ := e
      by_cases hk : k2 = k
      · simp [setKey, alookup, hk]
      · simp only [alookup, if_neg hk] at h
        simp [setKey, alookup, hk, ih h]

/-! ## Theorems for the callback claims -/

/-- The concrete orphan callback payload of
test__botx_method_callback__callback_not_found. -/
def orphanCallback : BotXMethodCallback :=
  .failure "21a9ec9e-f21f-4406-ac44-1a78d2ccf9e3" "chat_not_found"
    "Chat with id 705df263-6bfd-536a-9d51-13524afaab5c not found"

/-- Whether ingesting the callback completes without raising. -/
def ingestionSucceeds (m : CallbacksManager) (cb : BotXMethodCallback) : Bool :=
  match set_raw_botx_method_result m cb with
  | .ok _ => true
  | .error _ => false

/-- C1 (counterexample): a callback whose correlation id was never
registered does NOT merely record an observability event — ingestion
raises `BotXMethodCallbackNotFoundError` to its caller, exactly as
test__botx_method_callback__callback_not_found demands. -/
theorem c1_ingestion_raises_on_unknown_id :
    ingestionSucceeds ⟨[], true⟩ orphanCallback = false ∧
      set_raw_botx_method_result ⟨[], true⟩ orphanCallback =
        .error (.callbackNotFound "21a9ec9e-f21f-4406-ac44-1a78d2ccf9e3") := by
  constructor <;> rfl

/-- C1 (amended): an inbound callback whose correlation id is absent
from the table (never registered, or already resolved and removed)
raises `BotXMethodCallbackNotFoundError` naming the id to the
ingestion caller and delivers nothing; only a callback whose entry is
still present in TimedOut state is consumed as a non-fatal
observability event and dropped, with no exception and no delivery. -/
theorem c1_orphan_callback_handling (m : CallbacksManager)
    (cb : BotXMethodCallback) :
    (alookup cb.sync_id m.futures = none →
        set_raw_botx_method_result m cb =
          .error (.callbackNotFound cb.sync_id)) ∧
    (alookup cb.sync_id m.futures = some .timedOut →
        set_raw_botx_method_result m cb =
          .ok ({ m with futures := removeKey cb.sync_id m.futures },
               .orphanLogged cb.sync_id)) := by
  constructor
  · intro h
    simp [set_raw_botx_method_result, h]
  · intro h
    simp [set_raw_botx_method_result, h]

/-- Witness for C1 (amended): both limbs evaluated at concrete inputs. -/
theorem c1_orphan_callback_handling_witness :
    set_raw_botx_method_result ⟨[], true⟩ orphanCallback =
        .error (.callbackNotFound "21a9ec9e-f21f-4406-ac44-1a78d2ccf9e3") ∧
      set_raw_botx_method_result
          ⟨[("21a9ec9e-f21f-4406-ac44-1a78d2ccf9e3", .timedOut)], true⟩
          orphanCallback =
        .ok (⟨[], true⟩, .orphanLogged "21a9ec9e-f21f-4406-ac44-1a78d2ccf9e3") :=
  ⟨(c1_orphan_callback_handling ⟨[], true⟩ orphanCallback).1 rfl,
   (c1_orphan_callback_handling
      ⟨[("21a9ec9e-f21f-4406-ac44-1a78d2ccf9e3", .timedOut)], true⟩
      orphanCallback).2 rfl⟩

/-- C2: after `shutdown()`, every entry still in Created state is
drained — its waiter is woken with the shutting-down error for its
correlation id, and no Created entry remains in the table — and every
subsequent `register` fails immediately with the shutting-down
rejection (so no entry is inserted and no caller can hang on it). -/
theorem c2_shutdown_drains_and_rejects (m : CallbacksManager) (sid : SyncId)
    (h : alookup sid m.futures = some .pending) :
    (sid, BotXError.botShuttingDown sid) ∈ m.shutdown.2 ∧
      (∀ s, alookup s m.shutdown.1.futures ≠ some .pending) ∧
      ∀ s, create_botx_method_callback m.shutdown.1 s =
        .error .managerShuttingDown := by
  refine ⟨mem_shutdown_drain m.futures sid h, ?_, ?_⟩
  · intro s
    exact alookup_filter_not_pending m.futures s
  · intro s
    simp [create_botx_method_callback, CallbacksManager.shutdown]

/-- Witness for C2: a manager with one pending entry, shut down. -/
theorem c2_shutdown_drains_and_rejects_witness :
    ("21a9ec9e-f21f-4406-ac44-1a78d2ccf9e3",
        BotXError.botShuttingDown "21a9ec9e-f21f-4406-ac44-1a78d2ccf9e3") ∈
      (CallbacksManager.shutdown
        ⟨[("21a9ec9e-f21f-4406-ac44-1a78d2ccf9e3", .pending)], true⟩).2 ∧
    create_botx_method_callback
        (CallbacksManager.shutdown
          ⟨[("21a9ec9e-f21f-4406-ac44-1a78d2ccf9e3", .pending)], true⟩).1
        "other-sync-id" =
      .error .managerShuttingDown :=
  ⟨(c2_shutdown_drains_and_rejects
      ⟨[("21a9ec9e-f21f-4406-ac44-1a78d2ccf9e3", .pending)], true⟩
      "21a9ec9e-f21f-4406-ac44-1a78d2ccf9e3" rfl).1,
   (c2_shutdown_drains_and_rejects
      ⟨[("21a9ec9e-f21f-4406-ac44-1a78d2ccf9e3", .pending)], true⟩
      "21a9ec9e-f21f-4406-ac44-1a78d2ccf9e3" rfl).2.2 "other-sync-id"⟩

/-- C3: if the entry is still Created when the timer (armed from
`timeout = 0`) fires, the waiter receives the timeout error — a
constructor distinct from both callback-failure error kinds,
referencing the correlation id — and a callback for that id arriving
afterwards only produces the orphan observability event: ingestion
raises nothing and delivers nothing to the original caller. -/
theorem c3_timeout_then_late_callback_is_orphan (m : CallbacksManager)
    (sid : SyncId) (h : alookup sid m.futures = some .pending) :
    (callback_timeout_fire m sid).2 = some (.callbackNotReceived sid) ∧
      (∀ reason detail,
        BotXError.callbackNotReceived sid ≠
          .methodFailedCallbackReceived reason detail) ∧
      (∀ kind comment reason detail,
        BotXError.callbackNotReceived sid ≠
          .specificCallbackError kind comment reason detail) ∧
      ∀ cb : BotXMethodCallback, cb.sync_id = sid →
        set_raw_botx_method_result (callback_timeout_fire m sid).1 cb =
          .ok ({ m with futures :=
                  removeKey sid (setKey sid .timedOut m.futures) },
               .orphanLogged sid) := by
  refine ⟨?_, ?_, ?_, ?_⟩
  · simp [callback_timeout_fire, h]
  · intro reason detail hcontra
    cases hcontra
  · intro kind comment reason detail hcontra
    cases hcontra
  · intro cb hcb
    have hset : alookup sid (setKey sid FutureState.timedOut m.futures) =
        some .timedOut := alookup_setKey_self m.futures sid _ _ h
    simp [callback_timeout_fire, h, set_raw_botx_method_result, hcb, hset]

/-- Witness for C3: one registered entry, timer fires, late callback. -/
theorem c3_timeout_then_late_callback_is_orphan_witness :
    (callback_timeout_fire
        ⟨[("21a9ec9e-f21f-4406-ac44-1a78d2ccf9e3", .pending)], true⟩
        "21a9ec9e-f21f-4406-ac44-1a78d2ccf9e3").2 =
      some (.callbackNotReceived "21a9ec9e-f21f-4406-ac44-1a78d2ccf9e3") ∧
    set_raw_botx_method_result
        (callback_timeout_fire
          ⟨[("21a9ec9e-f21f-4406-ac44-1a78d2ccf9e3", .pending)], true⟩
          "21a9ec9e-f21f-4406-ac44-1a78d2ccf9e3").1
        orphanCallback =
      .ok (⟨[], true⟩, .orphanLogged "21a9ec9e-f21f-4406-ac44-1a78d2ccf9e3") :=
  ⟨(c3_timeout_then_late_callback_is_orphan
      ⟨[("21a9ec9e-f21f-4406-ac44-1a78d2ccf9e3", .pending)], true⟩
      "21a9ec9e-f21f-4406-ac44-1a78d2ccf9e3" rfl).1,
   (c3_timeout_then_late_callback_is_orphan
      ⟨[("21a9ec9e-f21f-4406-ac44-1a78d2ccf9e3", .pending)], true⟩
      "21a9ec9e-f21f-4406-ac44-1a78d2ccf9e3" rfl).2.2.2 orphanCallback rfl⟩

/-- C4: a failure callback delivered to a registered (Created) entry is
handed to the waiter, and the waiter-side processing consults the
per-call reason map: a mapped reason yields that specific error kind
(carrying the configured comment plus the raw reason and detail), an
unmapped reason yields the generic callback-failure error carrying
the raw reason and detail. -/
theorem c4_failure_callback_reason_mapping (m : CallbacksManager)
    (handlers : ErrorCallbackHandlers) (sid reason detail : String)
    (h : alookup sid m.futures = some .pending) :
    set_raw_botx_method_result m (.failure sid reason detail) =
        .ok ({ m with futures := removeKey sid m.futures },
             .delivered sid (.failure sid reason detail)) ∧
      (∀ kind comment, alookup reason handlers = some (kind, comment) →
        process_error_callback handlers (.failure sid reason detail) =
          .error (.specificCallbackError kind comment reason detail)) ∧
      (alookup reason handlers = none →
        process_error_callback handlers (.failure sid reason detail) =
          .error (.methodFailedCallbackReceived reason detail)) := by
  refine ⟨?_, ?_, ?_⟩
  · simp [set_raw_botx_method_result, BotXMethodCallback.sync_id, h]
  · intro kind comment hmap
    simp [process_error_callback, hmap]
  · intro hmap
    simp [process_error_callback, hmap]

/-- Witness for C4: the FooBar handlers of the test file; the mapped
reason "foo_bar_error" gives FooBarError with its comment, the
unmapped reason "quux_error" gives the generic failure error. -/
theorem c4_failure_callback_reason_mapping_witness :
    set_raw_botx_method_result
        ⟨[("21a9ec9e-f21f-4406-ac44-1a78d2ccf9e3", .pending)], true⟩
        (.failure "21a9ec9e-f21f-4406-ac44-1a78d2ccf9e3" "foo_bar_error" "d") =
      .ok (⟨[], true⟩,
           .delivered "21a9ec9e-f21f-4406-ac44-1a78d2ccf9e3"
             (.failure "21a9ec9e-f21f-4406-ac44-1a78d2ccf9e3" "foo_bar_error"
               "d")) ∧
    process_error_callback fooBarErrorCallbackHandlers
        (.failure "21a9ec9e-f21f-4406-ac44-1a78d2ccf9e3" "foo_bar_error" "d") =
      .error (.specificCallbackError "FooBarError" "FooBar comment"
        "foo_bar_error" "d") ∧
    process_error_callback fooBarErrorCallbackHandlers
        (.failure "21a9ec9e-f21f-4406-ac44-1a78d2ccf9e3" "quux_error" "d") =
      .error (.methodFailedCallbackReceived "quux_error" "d") :=
  ⟨(c4_failure_callback_reason_mapping
      ⟨[("21a9ec9e-f21f-4406-ac44-1a78d2ccf9e3", .pending)], true⟩
      fooBarErrorCallbackHandlers "21a9ec9e-f21f-4406-ac44-1a78d2ccf9e3"
      "foo_bar_error" "d" rfl).1,
   (c4_failure_callback_reason_mapping
      ⟨[("21a9ec9e-f21f-4406-ac44-1a78d2ccf9e3", .pending)], true⟩
      fooBarErrorCallbackHandlers "21a9ec9e-f21f-4406-ac44-1a78d2ccf9e3"
      "foo_bar_error" "d" rfl).2.1 "FooBarError" "FooBar comment" rfl,
   (c4_failure_callback_reason_mapping
      ⟨[("21a9ec9e-f21f-4406-ac44-1a78d2ccf9e3", .pending)], true⟩
      fooBarErrorCallbackHandlers "21a9ec9e-f21f-4406-ac44-1a78d2ccf9e3"
      "quux_error" "d" rfl).2.2 rfl⟩

/-! ## Method executor (FooBarCallbackMethod) -/

/-- The validated success envelope of FooBarCallbackMethod
(tests/client/test_botx_method_callback.py): status "ok" with the
correlation id under result.sync_id. -/
structure BotXAPIFooBarResponsePayload where
  sync_id : SyncId
  deriving DecidableEq, Repr

/-- Whether `execute` came back to its caller at once or suspended on a
registered pending-callback entry. -/
inductive ExecOutcome where
  | returned
  | suspended
  deriving DecidableEq, Repr

/-- Modelled from the spec: `_process_callback` (section 4.4 steps 3-4),
whose implementation file is absent from src/. When waiting is not
requested it does nothing — no entry is registered and control
returns at once; when waiting is requested it registers the
correlation id with the callbacks manager and suspends. -/
def process_callback_registration (m : CallbacksManager) (sid : SyncId)
    (wait_callback : Bool) :
    Except BotXError (CallbacksManager × ExecOutcome) :=
  if wait_callback then
    match create_botx_method_callback m sid with
    | .error e => .error e
    | .ok m2 => .ok (m2, .suspended)
  else .ok (m, .returned)

/-- FooBarCallbackMethod.execute
(tests/client/test_botx_method_callback.py lines 48-72): after the
transport call and envelope validation produced `api_model`, it runs
`_process_callback` on the extracted sync_id and returns the model. -/
def foo_bar_execute (m : CallbacksManager)
    (api_model : BotXAPIFooBarResponsePayload) (wait_callback : Bool) :
    Except BotXError
      (BotXAPIFooBarResponsePayload × CallbacksManager × ExecOutcome) :=
  match process_callback_registration m api_model.sync_id wait_callback with
  | .error e => .error e
  | .ok (m2, out) => .ok (api_model, m2, out)

/-- C5: executed with `wait_callback = false`, the method returns the
validated envelope at once, leaves the callbacks manager untouched
(no waiter registered), and does not suspend; consequently a later
callback for that correlation id finds no pending entry — it is an
orphan, never delivered to the original caller. -/
theorem c5_no_wait_returns_immediately (m : CallbacksManager)
    (api_model : BotXAPIFooBarResponsePayload)
    (h : alookup api_model.sync_id m.futures = none) :
    foo_bar_execute m api_model false = .ok (api_model, m, .returned) ∧
      ∀ cb : BotXMethodCallback, cb.sync_id = api_model.sync_id →
        set_raw_botx_method_result m cb =
          .error (.callbackNotFound api_model.sync_id) := by
  constructor
  · rfl
  · intro cb hcb
    simp [set_raw_botx_method_result, hcb, h]

/-- Witness for C5: the envelope of the mocked response, an empty
manager, and the late callback of the test payloads. -/
theorem c5_no_wait_returns_immediately_witness :
    foo_bar_execute ⟨[], true⟩ ⟨"21a9ec9e-f21f-4406-ac44-1a78d2ccf9e3"⟩ false =
        .ok (⟨"21a9ec9e-f21f-4406-ac44-1a78d2ccf9e3"⟩, ⟨[], true⟩, .returned) ∧
      set_raw_botx_method_result ⟨[], true⟩ orphanCallback =
        .error (.callbackNotFound "21a9ec9e-f21f-4406-ac44-1a78d2ccf9e3") :=
  ⟨(c5_no_wait_returns_immediately ⟨[], true⟩
      ⟨"21a9ec9e-f21f-4406-ac44-1a78d2ccf9e3"⟩ rfl).1,
   (c5_no_wait_returns_immediately ⟨[], true⟩
      ⟨"21a9ec9e-f21f-4406-ac44-1a78d2ccf9e3"⟩ rfl).2 orphanCallback rfl⟩

/-! ## Handler registry -/

/-- A registered command handler (the attribute set read by
BaseDispatcher and pinned by tests/test_collector.py: name, command,
description and the exclude_from_status / use_as_default_handler /
system_command_handler flags; the execution callback itself is opaque
to the registry and omitted). -/
structure CommandHandler where
  name : String
  command : String
  description : String
  exclude_from_status : Bool
  use_as_default_handler : Bool
  system_command_handler : Bool
  deriving DecidableEq, Repr

/-- One visible entry of the status/menu listing. -/
structure MenuCommand where
  body : String
  name : String
  description : String
  deriving DecidableEq, Repr

/-- Modelled from the spec: CommandHandler.to_status_command (the
botx.types module is absent from src/; section 4.1 and the design
notes say the status listing carries exactly the non-hidden,
non-system, non-default entries). Hidden, default and system-event
handlers map to none, every other handler to its menu command. -/
def CommandHandler.to_status_command (h : CommandHandler) : Option MenuCommand :=
  if h.exclude_from_status || h.use_as_default_handler || h.system_command_handler
  then none
  else some ⟨h.command, h.name, h.description⟩

/-- BaseDispatcher state (src/botx/bot/dispatcher/basedispatcher.py):
an OrderedDict of handlers, modelled as an insertion-ordered
association list, plus the separately stored default handler. -/
structure BaseDispatcher where
  handlers : List (String × CommandHandler)
  default_handler : Option CommandHandler
  deriving DecidableEq, Repr

/-- Assignment into an OrderedDict: an existing key keeps its position
and gets the new value, a fresh key is appended. -/
def odAssign {α : Type} (key : String) (v : α) :
    List (String × α) → List (String × α)
  | [] => [(key, v)]
  | (k, w) :: rest =>
      if k = key then (key, v) :: rest else (k, w) :: odAssign key v rest

/-- BaseDispatcher.add_handler
(src/botx/bot/dispatcher/basedispatcher.py lines 43-47): a handler
flagged as default replaces the stored default handler, any other
handler is assigned into the OrderedDict under its command string —
with no duplicate check of any kind. -/
def BaseDispatcher.add_handler (d : BaseDispatcher) (h : CommandHandler) :
    BaseDispatcher :=
  if h.use_as_default_handler then { d with default_handler := some h }
  else { d with handlers := odAssign h.command h d.handlers }

/-- BaseDispatcher._create_status
(src/botx/bot/dispatcher/basedispatcher.py lines 34-41): walk the
handlers in registration order and collect the truthy results of
to_status_command. -/
def BaseDispatcher.create_status (d : BaseDispatcher) : List MenuCommand :=
  d.handlers.filterMap (fun e => e.2.to_status_command)

/-! ## HandlersCollector (registration layer) -/

/-- The exception HandlersCollector raises on a duplicate registration
(BotXException in tests/test_collector.py). -/
inductive CollectorError where
  | botXException (command : String)
  deriving DecidableEq, Repr

/-- Collector state: the ordered command -> handler mapping. -/
structure HandlersCollector where
  handlers : List (String × CommandHandler)
  deriving DecidableEq, Repr

/-- Collapse runs of '/' characters, remembering whether the previous
kept character was a slash. -/
def collapseSlashesAux : Bool → List Char → List Char
  | _, [] => []
  | prevSlash, c :: rest =>
      if c = '/' then
        if prevSlash then collapseSlashesAux true rest
        else '/' :: collapseSlashesAux true rest
      else c :: collapseSlashesAux false rest

/-- Collapse every run of repeated '/' characters into a single one. -/
def collapseSlashes (l : List Char) : List Char :=
  collapseSlashesAux false l

/-- Modelled from the spec: command normalization at registration time
(section 4.1 — "collapsing repeated path separators, enforced leading
separator"; pinned by test_many_slashes_are_replaced_by_one and
test_decorator_accept_list_of_commands_when_callback_is_none).
A leading separator is prepended unconditionally and every run of
separators is then collapsed to one. -/
def normalize_command (cmd : String) : String :=
  ⟨collapseSlashes ('/' :: cmd.data)⟩

/-- Modelled from the spec: HandlersCollector.add_handler (the collector
module is absent from src/; section 4.1 — register fails on an
already-present command string, pinned by
test_raising_exception_adding_duplicates). A duplicate command
raises BotXException and the stored entries are untouched; otherwise
the entry is appended in registration order. -/
def collector_add_handler (c : HandlersCollector) (h : CommandHandler) :
    Except CollectorError HandlersCollector :=
  match alookup h.command c.handlers with
  | some _ => .error (.botXException h.command)
  | none => .ok ⟨c.handlers ++ [(h.command, h)]⟩

/-- Modelled from the spec: the plain `handler` registration path of
HandlersCollector (absent from src/): the supplied command string is
normalized, the entry is built with all flags cleared, and
add_handler stores it. -/
def collector_register_command (c : HandlersCollector)
    (name description cmd : String) : Except CollectorError HandlersCollector :=
  collector_add_handler c
    { name := name
      command := normalize_command cmd
      description := description
      exclude_from_status := false
      use_as_default_handler := false
      system_command_handler := false }

/-- Modelled from the spec: the system-event registration path of
HandlersCollector (absent from src/), pinned by
test_naming_rules_for_system_commands and
test_system_command_attributes: the handler is stored under the
command `"system:" ++ event` exactly as built — no slash
normalization is applied — with the system flag set. -/
def collector_register_system_event (c : HandlersCollector)
    (name event : String) : Except CollectorError HandlersCollector :=
  collector_add_handler c
    { name := name
      command := "system:" ++ event
      description := name ++ " handler"
      exclude_from_status := false
      use_as_default_handler := false
      system_command_handler := true }

/-- Modelled from the spec: DEFAULT_HANDLER_BODY (botx.core is absent
from src/) — the fixed command key the default handler is registered
under; its concrete value is not pinned by src/, only that it is one
fixed string. -/
def DEFAULT_HANDLER_BODY : String := "/default-handler"

/-- Modelled from the spec: the default-handler registration path of
HandlersCollector (absent from src/), pinned by
test_default_handler_attributes: the handler is stored under the
fixed DEFAULT_HANDLER_BODY key with the default flag set, so a second
default registration is a duplicate-command registration. -/
def collector_register_default (c : HandlersCollector) (name : String) :
    Except CollectorError HandlersCollector :=
  collector_add_handler c
    { name := name
      command := DEFAULT_HANDLER_BODY
      description := name ++ " handler"
      exclude_from_status := false
      use_as_default_handler := true
      system_command_handler := false }

/-! ## Theorems for the registry claims -/

/-- The /debug handler of tests/test_end_to_end.py. -/
def debugHandler : CommandHandler :=
  { name := "/debug"
    command := "/debug"
    description := "Simple debug command"
    exclude_from_status := false
    use_as_default_handler := false
    system_command_handler := false }

/-- A second, distinct handler registered under the same command. -/
def debugHandlerReplacement : CommandHandler :=
  { debugHandler with name := "/debug2", description := "Replacement" }

/-- A handler flagged as default. -/
def defaultHandlerA : CommandHandler :=
  { name := "default-a"
    command := DEFAULT_HANDLER_BODY
    description := "first default"
    exclude_from_status := false
    use_as_default_handler := true
    system_command_handler := false }

/-- A second, distinct handler flagged as default. -/
def defaultHandlerB : CommandHandler :=
  { defaultHandlerA with name := "default-b", description := "second default" }

/-- C6 (counterexample): BaseDispatcher.add_handler does not fail on a
duplicate — registering a second handler under the already-present
command "/debug" succeeds and silently replaces the stored entry, and
registering a second default-flagged handler silently replaces the
stored default handler. The registration cannot fail at all: its
result type carries no error. -/
theorem c6_add_handler_overwrites_duplicates :
    BaseDispatcher.add_handler ⟨[("/debug", debugHandler)], none⟩
        debugHandlerReplacement =
      ⟨[("/debug", debugHandlerReplacement)], none⟩ ∧
    BaseDispatcher.add_handler ⟨[], some defaultHandlerA⟩ defaultHandlerB =
      ⟨[], some defaultHandlerB⟩ ∧
    debugHandlerReplacement ≠ debugHandler ∧
    defaultHandlerB ≠ defaultHandlerA := by
  refine ⟨rfl, rfl, by decide, by decide⟩

/-- C6 (amended): duplicate rejection lives one layer up, in
HandlersCollector: registering a handler whose command string is
already present — including a second default handler, which reuses
the one fixed default key — fails with BotXException and produces no
updated collector, so the existing entries stay unchanged.
BaseDispatcher.add_handler itself performs no duplicate check. -/
theorem c6_collector_rejects_duplicates (c : HandlersCollector)
    (h : CommandHandler) (n : String)
    (hdup : alookup h.command c.handlers ≠ none)
    (hdef : alookup DEFAULT_HANDLER_BODY c.handlers ≠ none) :
    collector_add_handler c h = .error (.botXException h.command) ∧
      collector_register_default c n =
        .error (.botXException DEFAULT_HANDLER_BODY) := by
  constructor
  · unfold collector_add_handler
    cases hl : alookup h.command c.handlers with
    | none => exact absurd hl hdup
    | some _ => rfl
  · unfold collector_register_default collector_add_handler
    cases hl : alookup DEFAULT_HANDLER_BODY c.handlers with
    | none => exact absurd hl hdef
    | some _ => rfl

/-- Witness for C6 (amended): a collector already holding "/debug" and a
default handler rejects both re-registrations. -/
theorem c6_collector_rejects_duplicates_witness :
    collector_add_handler
        ⟨[("/debug", debugHandler), (DEFAULT_HANDLER_BODY, defaultHandlerA)]⟩
        debugHandlerReplacement =
      .error (.botXException "/debug") ∧
    collector_register_default
        ⟨[("/debug", debugHandler), (DEFAULT_HANDLER_BODY, defaultHandlerA)]⟩
        "default-b" =
      .error (.botXException DEFAULT_HANDLER_BODY) :=
  c6_collector_rejects_duplicates
    ⟨[("/debug", debugHandler), (DEFAULT_HANDLER_BODY, defaultHandlerA)]⟩
    debugHandlerReplacement "default-b" (by decide) (by decide)

/-- C8 (counterexample): not every command string supplied at
registration is stored in normalized form. Registering the system
event "chat_created" (test_naming_rules_for_system_commands) stores
the entry under "system:chat_created" — with no leading separator —
while the normalized form of the supplied string would be
"/chat_created". -/
theorem c8_system_commands_stored_unnormalized :
    collector_register_system_event ⟨[]⟩ "chat_created" "chat_created" =
      .ok ⟨[("system:chat_created",
        { name := "chat_created"
          command := "system:chat_created"
          description := "chat_created handler"
          exclude_from_status := false
          use_as_default_handler := false
          system_command_handler := true })]⟩ ∧
    normalize_command "chat_created" = "/chat_created" ∧
    ("system:chat_created" : String) ≠ "/chat_created" := by
  refine ⟨rfl, rfl, by decide⟩

/-- C8 (amended): every command registered through the plain `handler`
path is stored under its normalized form — repeated separators
collapsed to one and a leading separator enforced, so lookups are
exact-match on the normalized string; the system-event path instead
stores its handler under "system:" ++ event verbatim, with no slash
normalization. -/
theorem c8_plain_commands_stored_normalized (c : HandlersCollector)
    (name description cmd : String)
    (hfresh : alookup (normalize_command cmd) c.handlers = none) :
    collector_register_command c name description cmd =
      .ok ⟨c.handlers ++
        [(normalize_command cmd,
          { name := name
            command := normalize_command cmd
            description := description
            exclude_from_status := false
            use_as_default_handler := false
            system_command_handler := false })]⟩ ∧
    normalize_command "/////command" = "/command" ∧
    normalize_command "info" = "/info" ∧
    normalize_command "/information" = "/information" ∧
    ∀ event : String,
      (collector_register_system_event ⟨[]⟩ name event).map
          (fun c2 => c2.handlers.map Prod.fst) =
        .ok ["system:" ++ event] := by
  refine ⟨?_, rfl, rfl, rfl, ?_⟩
  · unfold collector_register_command collector_add_handler
    simp [hfresh]
  · intro event
    rfl

/-- Witness for C8 (amended): the commands of
test_many_slashes_are_replaced_by_one and
test_decorator_accept_list_of_commands_when_callback_is_none. -/
theorem c8_plain_commands_stored_normalized_witness :
    collector_register_command ⟨[]⟩ "command" "Command handler" "/////command" =
      .ok ⟨[("/command",
        { name := "command"
          command := "/command"
          description := "Command handler"
          exclude_from_status := false
          use_as_default_handler := false
          system_command_handler := false })]⟩ ∧
    (collector_register_system_event ⟨[]⟩ "command" "chat_created").map
        (fun c2 => c2.handlers.map Prod.fst) =
      .ok ["system:chat_created"] :=
  ⟨(c8_plain_commands_stored_normalized ⟨[]⟩ "command" "Command handler"
      "/////command" rfl).1,
   (c8_plain_commands_stored_normalized ⟨[]⟩ "command" "Command handler"
      "/////command" rfl).2.2.2.2 "chat_created"⟩

/-- C9: the status listing `_create_status` builds is exactly the list
of menu commands of the stored handlers that are neither hidden nor
system-event nor default-flagged, in registration order, each
carrying its command body, name and description; hidden entries,
system-event entries and default entries never contribute, and the
separately stored default handler is never consulted at all. -/
theorem c9_status_lists_visible_handlers (d : BaseDispatcher) :
    d.create_status =
      ((d.handlers.map Prod.snd).filter
        (fun h => !(h.exclude_from_status || h.use_as_default_handler ||
          h.system_command_handler))).map
        (fun h => ⟨h.command, h.name, h.description⟩) ∧
    ∀ dh : Option CommandHandler,
      BaseDispatcher.create_status ⟨d.handlers, dh⟩ = d.create_status := by
  constructor
  · show d.handlers.filterMap (fun e => e.2.to_status_command) = _
    induction d.handlers with
    | nil => rfl
    | cons e rest ih =>
        obtain ⟨k, h⟩ := e
        obtain ⟨n, cm, ds, ef, dh, sc⟩ := h
        cases ef <;> cases dh <;> cases sc <;>
          simp_all [List.filterMap_cons, CommandHandler.to_status_command]
  · intro dh
    rfl

/-! ## Method executor: response status handling -/

/-- The specific client-error classes the chats API methods under
src/botx/client/chats_api map status codes to. -/
inductive ClientErrorKind where
  | permissionDenied
  | chatCreationProhibited
  | chatCreation
  | chatNotFound
  deriving DecidableEq, Repr

/-- What `_botx_method_call` produces for one response: success, a
method-specific error built by the status-handler table, or the
generic client error carrying the raw status code and body. -/
inductive MethodCallError where
  | specific (kind : ClientErrorKind) (status : Nat) (body : String)
  | invalidStatusCode (status : Nat) (body : String)
  deriving DecidableEq, Repr

/-- A status-code -> error-constructor table, read like a Python dict. -/
abbrev StatusHandlers := Nat → Option ClientErrorKind

/-- One `code: response_exception_thrower(E)` entry layered over a base
table (Python `\x7b**base, code: thrower\x7d`: the later key wins). -/
def addStatusHandler (base : StatusHandlers) (code : Nat)
    (kind : ClientErrorKind) : StatusHandlers :=
  fun status => if status = code then some kind else base status

/-- AddUserMethod.status_handlers
(src/botx/client/chats_api/add_user.py lines 36-40): the base table of
AuthorizedBotXMethod extended with 403 -> PermissionDeniedError. -/
def addUserStatusHandlers (base : StatusHandlers) : StatusHandlers :=
  addStatusHandler base 403 .permissionDenied

/-- CreateChatMethod.status_handlers
(src/botx/client/chats_api/create_chat.py lines 63-68): the base table
extended with 403 -> ChatCreationProhibitedError and
422 -> ChatCreationError. -/
def createChatStatusHandlers (base : StatusHandlers) : StatusHandlers :=
  addStatusHandler (addStatusHandler base 403 .chatCreationProhibited)
    422 .chatCreation

/-- UnpinMessageMethod.status_handlers
(src/botx/client/chats_api/unpin_message.py lines 29-34): the base
table extended with 403 -> PermissionDeniedError and
404 -> ChatNotFoundError. -/
def unpinMessageStatusHandlers (base : StatusHandlers) : StatusHandlers :=
  addStatusHandler (addStatusHandler base 403 .permissionDenied)
    404 .chatNotFound

/-- Whether an HTTP status code counts as success (2xx). -/
def isSuccessStatus (status : Nat) : Bool :=
  200 ≤ status && status < 300

/-- Modelled from the spec: the response-status dispatch of
`_botx_method_call` (section 4.4 step 2 and section 7; the shared
botx_method module is absent from src/): a status present in the
method's table raises that method-specific error; a status absent
from the table passes when it is a success status and otherwise
raises the generic client error carrying the raw status and body. -/
def raise_for_status (handlers : StatusHandlers) (status : Nat)
    (body : String) : Except MethodCallError Unit :=
  match handlers status with
  | some kind => .error (.specific kind status body)
  | none =>
      if isSuccessStatus status then .ok ()
      else .error (.invalidStatusCode status body)

/-- C7: whatever the inherited base table holds, each chats-API method
maps its tabled status codes to its specific error (403 ->
PermissionDeniedError for AddUserMethod, 422 -> ChatCreationError and
403 -> ChatCreationProhibitedError for CreateChatMethod, 404 ->
ChatNotFoundError for UnpinMessageMethod), and every non-success
status absent from a method's table raises the generic client error
carrying the raw status code and body. -/
theorem c7_status_code_error_mapping (base : StatusHandlers) (body : String) :
    (raise_for_status (addUserStatusHandlers base) 403 body =
        .error (.specific .permissionDenied 403 body)) ∧
      (raise_for_status (createChatStatusHandlers base) 422 body =
        .error (.specific .chatCreation 422 body)) ∧
      (raise_for_status (createChatStatusHandlers base) 403 body =
        .error (.specific .chatCreationProhibited 403 body)) ∧
      (raise_for_status (unpinMessageStatusHandlers base) 404 body =
        .error (.specific .chatNotFound 404 body)) ∧
      ∀ status : Nat, addUserStatusHandlers base status = none →
        isSuccessStatus status = false →
        raise_for_status (addUserStatusHandlers base) status body =
          .error (.invalidStatusCode status body) := by
  refine ⟨rfl, rfl, rfl, rfl, ?_⟩
  intro status habsent hfail
  simp [raise_for_status, habsent, hfail]

/-- Witness for C7: an empty base table, an unmapped 500 response. -/
theorem c7_status_code_error_mapping_witness :
    raise_for_status (addUserStatusHandlers (fun _ => none)) 403 "b" =
        .error (.specific .permissionDenied 403 "b") ∧
      raise_for_status (createChatStatusHandlers (fun _ => none)) 422 "b" =
        .error (.specific .chatCreation 422 "b") ∧
      raise_for_status (addUserStatusHandlers (fun _ => none)) 500 "b" =
        .error (.invalidStatusCode 500 "b") :=
  ⟨(c7_status_code_error_mapping (fun _ => none) "b").1,
   (c7_status_code_error_mapping (fun _ => none) "b").2.1,
   (c7_status_code_error_mapping (fun _ => none) "b").2.2.2.2 500 rfl rfl⟩

/-! ## AsyncBot.send_message -/

/-- The `recipients` argument: the "all" marker or an explicit list. -/
inductive RecipientsArg where
  | all
  | users (huids : List String)
  deriving DecidableEq, Repr

/-- Bubble markup payload, opaque to send_message. -/
abbrev BubbleElement := String

/-- Keyboard markup payload, opaque to send_message. -/
abbrev KeyboardElement := String

/-- The `chat_id` argument of AsyncBot.send_message: a SyncID, one group
chat UUID, or a list of group chat UUIDs. -/
inductive ChatIdArg where
  | syncId (id : String)
  | uuid (id : String)
  | uuidList (ids : List String)
  deriving DecidableEq, Repr

/-- The command-result POST payload (ResponseCommand of botx.types). -/
structure ResponseCommand where
  bot_id : String
  sync_id : String
  body : String
  bubble : List (List BubbleElement)
  keyboard : List (List KeyboardElement)
  recipients : RecipientsArg
  deriving DecidableEq, Repr

/-- The notification POST payload (ResponseNotification of botx.types). -/
structure ResponseNotification where
  bot_id : String
  group_chat_ids : List String
  body : String
  bubble : List (List BubbleElement)
  keyboard : List (List KeyboardElement)
  recipients : RecipientsArg
  deriving DecidableEq, Repr

/-- One outbound HTTP request AsyncBot posts: the command-result url of
the host with a ResponseCommand body, or the notification url with a
ResponseNotification body. -/
inductive OutboundRequest where
  | command (host : String) (payload : ResponseCommand)
  | notification (host : String) (payload : ResponseNotification)
  deriving DecidableEq, Repr

/-- AsyncBot._send_command_result (src/botx/asyncbot.py lines 90-114):
builds the ResponseCommand payload and posts it to the command url. -/
def _send_command_result (text chat_id bot_id host : String)
    (recipients : RecipientsArg) (bubble : List (List BubbleElement))
    (keyboard : List (List KeyboardElement)) : OutboundRequest :=
  .command host
    { bot_id := bot_id
      sync_id := chat_id
      body := text
      bubble := bubble
      keyboard := keyboard
      recipients := recipients }

/-- AsyncBot._send_notification_result (src/botx/asyncbot.py lines
116-139): builds the ResponseNotification payload and posts it to the
notification url. -/
def _send_notification_result (text : String) (group_chat_ids : List String)
    (bot_id host : String) (recipients : RecipientsArg)
    (bubble : List (List BubbleElement))
    (keyboard : List (List KeyboardElement)) : OutboundRequest :=
  .notification host
    { bot_id := bot_id
      group_chat_ids := group_chat_ids
      body := text
      bubble := bubble
      keyboard := keyboard
      recipients := recipients }

/-- AsyncBot.send_message (src/botx/asyncbot.py lines 47-88): missing
bubble/keyboard default to empty (Python `if not bubble`, which also
maps an explicitly empty list to the same empty list); a SyncID goes
through the command-result path, a single UUID is appended to a fresh
group_chat_ids list and a UUID list is taken as a whole, both then
delegated to the notification path. -/
def send_message (text : String) (chat_id : ChatIdArg) (bot_id host : String)
    (recipients : RecipientsArg)
    (bubble : Option (List (List BubbleElement)))
    (keyboard : Option (List (List KeyboardElement))) : OutboundRequest :=
  let bubbleVal := bubble.getD []
  let keyboardVal := keyboard.getD []
  match chat_id with
  | .syncId cid =>
      _send_command_result text cid bot_id host recipients bubbleVal keyboardVal
  | .uuid cid =>
      _send_notification_result text ([] ++ [cid]) bot_id host recipients
        bubbleVal keyboardVal
  | .uuidList cids =>
      _send_notification_result text cids bot_id host recipients bubbleVal
        keyboardVal

/-- C10: sending to a single UUID produces exactly the outbound request
of sending to the singleton list of that UUID — both delegate to
_send_notification_result with group_chat_ids = [chat_id] and all
other arguments unchanged. -/
theorem c10_single_uuid_equals_singleton_list (text cid bot_id host : String)
    (recipients : RecipientsArg) (bubble : Option (List (List BubbleElement)))
    (keyboard : Option (List (List KeyboardElement))) :
    send_message text (.uuid cid) bot_id host recipients bubble keyboard =
        send_message text (.uuidList [cid]) bot_id host recipients bubble
          keyboard ∧
      send_message text (.uuid cid) bot_id host recipients bubble keyboard =
        _send_notification_result text [cid] bot_id host recipients
          (bubble.getD []) (keyboard.getD []) :=
  ⟨rfl, rfl⟩

end Pybotx
